import Mathlib

/-!
Verification of the Pitchfork "Best New Songs" scraper
(`pitchfork_scraper.py`) against its specification.

The script is embedded shallowly:

* HTML structure is abstracted at the boundary the script actually uses:
  an element carries its tag, its class list, the `.string` of its first
  `<h2>` descendant (`Option (Option String)`: the outer `Option` is
  presence of the `<h2>`, the inner one is BeautifulSoup's `.string`,
  which can be `None`), and the `.string`s of the `<li>` children of its
  first `<ul>` descendant (`Option (List String)`: the `Option` is
  presence of the `<ul>`).
* The fetch collaborator (`urlopen`) is a function from the URL to an
  outcome: a successful body, an `HTTPError` (any HTTP status error —
  the script's `except HTTPError` catches them all), or any other
  network failure (`URLError`, timeout, DNS), which the script does not
  catch and which therefore propagates.
* The parse collaborator (`BeautifulSoup(html, "html.parser")`) is a
  function from the body to the document's element list, in document
  order.
* Python exceptions become `Except` values, named after the spec's
  error taxonomy: `ValueError` on range validation ↦ `invalidRange`,
  an uncaught network failure ↦ `transportFailure`, an
  `AttributeError` inside `get_track` (absent `<h2>`, `None` headline
  string, absent `<ul>`) ↦ `malformedEntry`.
* The `while page_no <= end_page` loop increments `page_no` by exactly
  one per iteration, so it runs at most `(end_page + 1 - start_page)`
  iterations; the loop is embedded structurally on that iteration
  count, keeping the guard/termination behaviour identical.
* `print` side effects are collected into a message log (the second
  component of the result), emitted exactly when `verbose` is true.
-/

/-- A `(title, artist)` record, as returned by `get_track`. -/
abbrev Record := String × String

/-- The spec's error taxonomy, covering the Python exceptions the script
can raise (see module docstring for the mapping). -/
inductive ScrapeError where
  | invalidRange
  | transportFailure
  | malformedEntry
deriving DecidableEq, Repr

/-- Outcome of `urlopen(url)`: a body, an `HTTPError` carrying the HTTP
status code (the script catches every `HTTPError`, whatever its code),
or any other transport failure (uncaught by the script). -/
inductive FetchResult where
  | success (body : String)
  | httpError (code : Nat)
  | urlError
deriving DecidableEq, Repr

/-- An HTML element at the granularity the script inspects:
tag name, class attribute values, `elem.h2.string`
(outer `Option`: `<h2>` present; inner: `.string` non-`None`), and
`elem.ul` with the `.string` of each `<li>` inside it
(`Option`: `<ul>` present). -/
structure Element where
  tag : String
  classes : List String
  h2 : Option (Option String)
  ul : Option (List String)
deriving DecidableEq, Repr

/-- `title_raw.translate({ord(i): None for i in "“”\""})`:
delete every occurrence of the three characters `“`, `”`, `"`. -/
def clean_title (s : String) : String :=
  ⟨s.data.filter (fun c => !(c = '“' || c = '”' || c = '"'))⟩

/-- `", ".join(artist_list)`. -/
def joinArtists : List String → String
  | [] => ""
  | [a] => a
  | a :: rest => a ++ ", " ++ joinArtists rest

/-- `get_track(item_link)`: read `item_link.h2.string`, strip the quote
characters, read the `<li>` strings under `item_link.ul`, and join them
with `", "`.  An absent `<h2>`, a `None` headline string, or an absent
`<ul>` raises (`AttributeError` in Python, `malformedEntry` here), in
the source's evaluation order. -/
def get_track (item_link : Element) : Except ScrapeError Record :=
  match item_link.h2 with
  | none => .error .malformedEntry
  | some none => .error .malformedEntry
  | some (some title_raw) =>
    match item_link.ul with
    | none => .error .malformedEntry
    | some artist_list => .ok (clean_title title_raw, joinArtists artist_list)

/-- The two class values recognized for entry links. -/
def entryClasses : List String := ["title-link", "track-collection-item__track-link"]

/-- `soup.find_all("a", {"class": ["title-link",
"track-collection-item__track-link"]})`: the anchors whose class
attribute contains either recognized value, in document order
(BeautifulSoup matches a multi-valued query when any class matches). -/
def find_all_entry_links (doc : List Element) : List Element :=
  doc.filter (fun e => e.tag == "a" && e.classes.any (fun c => entryClasses.contains c))

/-- `[get_track(item_link) for item_link in item_links]`: extract each
matched entry left to right; the first exception propagates. -/
def extract_tracks : List Element → Except ScrapeError (List Record)
  | [] => .ok []
  | l :: rest =>
    match get_track l with
    | .error e => .error e
    | .ok r =>
      match extract_tracks rest with
      | .error e => .error e
      | .ok rs => .ok (r :: rs)

/-- The page URL: the fixed base listing URL with the page counter as
the `page` query parameter. -/
def pageURL (n : Int) : String :=
  s!"https://pitchfork.com/reviews/best/tracks/?page={n}"

/-- Progress message printed (when verbose) after a successful fetch. -/
def msgGetting (p : Int) : String := s!"Getting tracks from page {p}..."

/-- Message printed (when verbose) when an `HTTPError` ends pagination. -/
def msgFinished (p : Int) : String := s!"Finished scraping at page {p}."

/-- Message printed (when verbose) by the loop's `else` clause when the
page bound is exhausted. -/
def msgLimit (p : Int) : String := s!"Page limit {p} reached."

/-- The `while page_no <= end_page` loop of `scrape_songs`, embedded
structurally on the remaining iteration count: the caller passes
`fuel = (end_page + 1 - page_no).toNat`, so `fuel = 0` is exactly the
guard `page_no > end_page` (the `while`-`else` branch) and each
iteration both increments `page_no` and decrements `fuel`.
Per iteration: fetch the page; on `HTTPError` print the finish message
and `break` (returning the accumulator); on any other fetch failure
propagate it; otherwise print the progress message, parse, query the
entry links, extract each (`get_track` failures propagate), append, and
continue. -/
def scrapeLoop (fetch : String → FetchResult) (parse : String → List Element)
    ( verbose : Bool) (end_page : Int) :
    Nat → Int → List Record → List String →
      Except ScrapeError (List Record) × List String
  | 0, _, acc, log =>
      (.ok acc, log ++ (if verbose then [msgLimit end_page] else []))
  | fuel + 1, page_no, acc, log =>
      match fetch (pageURL page_no) with
      | .httpError _ =>
          (.ok acc, log ++ (if verbose then [msgFinished (page_no - 1)] else []))
      | .urlError => (.error .transportFailure, log)
      | .success body =>
          let log2 := log ++ (if verbose then [msgGetting page_no] else [])
          match extract_tracks (find_all_entry_links (parse body)) with
          | .error e => (.error e, log2)
          | .ok tracks =>
              scrapeLoop fetch parse verbose end_page fuel (page_no + 1)
                (acc ++ tracks) log2

/-- `scrape_songs(start_page, end_page, verbose)`: validate the range
(`start_page <= 0` or `end_page < start_page` raises `ValueError`,
before any fetch), then run the page loop starting from the
`[("title", "artist")]` accumulator.  The result pairs the returned
record list (or the propagated error) with the log of printed
messages. -/
def scrape_songs (fetch : String → FetchResult) (parse : String → List Element)
    (start_page end_page : Int) ( verbose : Bool) :
    Except ScrapeError (List Record) × List String :=
  if start_page ≤ 0 then (.error .invalidRange, [])
  else if end_page < start_page then (.error .invalidRange, [])
  else
    scrapeLoop fetch parse verbose end_page (end_page + 1 - start_page).toNat
      start_page [("title", "artist")] []

/-- The records the loop accumulates over `n` consecutive pages starting
at page `a`, when page `q` contributes `recs q`. -/
def pagesConcat (recs : Int → List Record) : Nat → Int → List Record
  | 0, _ => []
  | n + 1, a => recs a ++ pagesConcat recs n (a + 1)

/-- Number of (necessarily non-overlapping) occurrences of the two-
character separator `", "` in a character list. -/
def countSep : List Char → Nat
  | c1 :: c2 :: rest => (if c1 = ',' ∧ c2 = ' ' then 1 else 0) + countSep (c2 :: rest)
  | _ => 0

/-- Modelled from the spec: §4.1 step 2's title cleanup, deleting — one
character at a time, by deletion rather than substitution — every
occurrence of the left double quotation mark, the right double quotation
mark, and the straight double quote. -/
def spec_delete_quotes (s : String) : String :=
  ⟨((s.data.filter (· ≠ '“')).filter (· ≠ '”')).filter (· ≠ '"')⟩

/-! ## Helper lemmas -/

theorem get_track_error_malformed (item : Element) (e : ScrapeError)
    (h : get_track item = .error e) : e = .malformedEntry := by
  unfold get_track at h
  cases hh : item.h2 with
  | none => rw [hh] at h; cases h; rfl
  | some o =>
    cases o with
    | none => rw [hh] at h; cases h; rfl
    | some t =>
      rw [hh] at h
      cases hu : item.ul with
      | none => rw [hu] at h; cases h; rfl
      | some l => rw [hu] at h; cases h

theorem extract_tracks_ne_invalidRange :
    ∀ links : List Element, extract_tracks links ≠ .error .invalidRange := by
  intro links
  induction links with
  | nil => simp [extract_tracks]
  | cons l rest ih =>
    unfold extract_tracks
    cases hg : get_track l with
    | error e =>
      have := get_track_error_malformed l e hg
      subst this
      simp
    | ok r =>
      cases hx : extract_tracks rest with
      | error e =>
        intro hc
        exact ih (by simp at hc; rw [hx, hc])
      | ok rs => simp

theorem countSep_cons (c : Char) (l : List Char) :
    countSep (c :: l) = (if c = ',' ∧ l.head? = some ' ' then 1 else 0) + countSep l := by
  cases l with
  | nil => simp [countSep]
  | cons c2 rest => simp [countSep]

theorem countSep_sep_append (xs ys : List Char) :
    countSep (xs ++ ',' :: ' ' :: ys) = countSep xs + 1 + countSep ys := by
  induction xs with
  | nil => simp [countSep_cons, countSep]
  | cons c xs ih =>
    rw [List.cons_append, countSep_cons, countSep_cons c xs, ih]
    cases xs with
    | nil => simp
    | cons c2 rest => simp; omega

theorem data_append (a b : String) : (a ++ b).data = a.data ++ b.data :=
  String.data_append a b

theorem sep_data : (", " : String).data = [',', ' '] := by decide

theorem joinArtists_cons_cons (a b : String) (rest : List String) :
    (joinArtists (a :: b :: rest)).data =
      a.data ++ ',' :: ' ' :: (joinArtists (b :: rest)).data := by
  show ((a ++ ", ") ++ joinArtists (b :: rest)).data = _
  rw [data_append, data_append, sep_data]
  simp

theorem countSep_joinArtists : ∀ l : List String,
    (∀ name ∈ l, countSep name.data = 0) →
    countSep (joinArtists l).data = l.length - 1
  | [], _ => by simp [joinArtists, countSep]
  | [a], h => by
      simpa [joinArtists] using h a (by simp)
  | a :: b :: rest, h => by
      have ih := countSep_joinArtists (b :: rest)
        (fun n hn => h n (List.mem_cons_of_mem _ hn))
      have ha := h a (by simp)
      rw [joinArtists_cons_cons, countSep_sep_append, ha, ih]
      simp
      omega

theorem clean_title_eq_spec (s : String) :
    clean_title s = spec_delete_quotes s := by
  have key : ∀ ds : List Char,
      ds.filter (fun c => !(c = '“' || c = '”' || c = '"')) =
      ((ds.filter (· ≠ '“')).filter (· ≠ '”')).filter (· ≠ '"') := by
    intro ds
    rw [List.filter_filter, List.filter_filter]
    apply List.filter_congr
    intro c _
    by_cases h1 : c = '“'
    · subst h1; simp
    · by_cases h2 : c = '”'
      · subst h2; simp
      · by_cases h3 : c = '"'
        · subst h3; simp
        · simp [h1, h2, h3]
  simp only [clean_title, spec_delete_quotes, key]

theorem scrapeLoop_fst_log (fetch : String → FetchResult) (parse : String → List Element)
    ( v v' : Bool) (ep : Int) :
    ∀ (fuel : Nat) (q : Int) (acc : List Record) (log log' : List String),
      (scrapeLoop fetch parse v ep fuel q acc log).1 =
      (scrapeLoop fetch parse v' ep fuel q acc log').1 := by
  intro fuel
  induction fuel with
  | zero => intro q acc log log'; simp [scrapeLoop]
  | succ n ih =>
    intro q acc log log'
    cases hf : fetch (pageURL q) with
    | httpError c => simp [scrapeLoop, hf]
    | urlError => simp [scrapeLoop, hf]
    | success body =>
      cases hx : extract_tracks (find_all_entry_links (parse body)) with
      | error e => simp [scrapeLoop, hf, hx]
      | ok tracks =>
        simp only [scrapeLoop, hf, hx]
        exact ih _ _ _ _

theorem scrapeLoop_acc_prefix (fetch : String → FetchResult) (parse : String → List Element)
    ( v : Bool) (ep : Int) :
    ∀ (fuel : Nat) (q : Int) (acc : List Record) (log : List String) (l : List Record),
      (scrapeLoop fetch parse v ep fuel q acc log).1 = .ok l →
      ∃ rest, l = acc ++ rest := by
  intro fuel
  induction fuel with
  | zero =>
    intro q acc log l h
    simp [scrapeLoop] at h
    exact ⟨[], by simp [← h]⟩
  | succ n ih =>
    intro q acc log l h
    cases hf : fetch (pageURL q) with
    | httpError c =>
      simp [scrapeLoop, hf] at h
      exact ⟨[], by simp [← h]⟩
    | urlError => simp [scrapeLoop, hf] at h
    | success body =>
      cases hx : extract_tracks (find_all_entry_links (parse body)) with
      | error e => simp [scrapeLoop, hf, hx] at h
      | ok tracks =>
        simp only [scrapeLoop, hf, hx] at h
        obtain ⟨rest, hrest⟩ := ih _ _ _ _ h
        exact ⟨tracks ++ rest, by simp [hrest]⟩

theorem scrapeLoop_ne_invalidRange (fetch : String → FetchResult)
    (parse : String → List Element) ( v : Bool) (ep : Int) :
    ∀ (fuel : Nat) (q : Int) (acc : List Record) (log : List String),
      (scrapeLoop fetch parse v ep fuel q acc log).1 ≠ .error .invalidRange := by
  intro fuel
  induction fuel with
  | zero => intro q acc log; simp [scrapeLoop]
  | succ n ih =>
    intro q acc log
    cases hf : fetch (pageURL q) with
    | httpError c => simp [scrapeLoop, hf]
    | urlError => simp [scrapeLoop, hf]
    | success body =>
      cases hx : extract_tracks (find_all_entry_links (parse body)) with
      | error e =>
        simp only [scrapeLoop, hf, hx]
        intro hc
        refine extract_tracks_ne_invalidRange (find_all_entry_links (parse body)) ?_
        rw [hx]
        simpa using hc
      | ok tracks =>
        simp only [scrapeLoop, hf, hx]
        exact ih _ _ _

theorem scrapeLoop_run (fetch : String → FetchResult) (parse : String → List Element)
    ( v : Bool) (ep sp p : Int)
    (body : Int → String) (recs : Int → List Record)
    (hfetch : ∀ q, sp ≤ q → q < p → fetch (pageURL q) = .success (body q))
    (hrecs : ∀ q, sp ≤ q → q < p →
      extract_tracks (find_all_entry_links (parse (body q))) = .ok (recs q))
    (hple : p ≤ ep + 1) :
    ∀ (n : Nat) (q : Int), sp ≤ q → q + n = p →
      ∀ (acc : List Record) (log : List String),
      (scrapeLoop fetch parse v ep ((ep + 1 - q).toNat) q acc log).1 =
      (scrapeLoop fetch parse v ep ((ep + 1 - p).toNat) p
        (acc ++ pagesConcat recs n q) []).1 := by
  intro n
  induction n with
  | zero =>
    intro q hq hqp acc log
    have hqp' : q = p := by omega
    subst hqp'
    simp only [pagesConcat, List.append_nil]
    exact scrapeLoop_fst_log fetch parse v v ep _ q acc log []
  | succ n ih =>
    intro q hq hqp acc log
    have hfuel : (ep + 1 - q).toNat = (ep + 1 - (q + 1)).toNat + 1 := by omega
    rw [hfuel]
    have hfq := hfetch q hq (by omega)
    have hrq := hrecs q hq (by omega)
    simp only [scrapeLoop, hfq, hrq]
    have hih := ih (q + 1) (by omega) (by omega) (acc ++ recs q)
      (log ++ if v then [msgGetting q] else [])
    rw [hih]
    simp [pagesConcat, List.append_assoc]

/-! ## Claims -/

/-- C1: if the fetch collaborator reports the "not found" condition
(HTTP 404) on the attempt for page `p`, with `start_page ≤ p ≤
end_page`, after succeeding on every earlier page whose entries all
extract, `scrape_songs` stops the page loop immediately and returns
normally (no error): the header followed by exactly the records
extracted from pages `start_page .. p-1`. -/
theorem C1_notfound_is_normal_termination
    (fetch : String → FetchResult) (parse : String → List Element)
    (sp ep p : Int) ( v : Bool)
    (body : Int → String) (recs : Int → List Record)
    (hsp : 1 ≤ sp) (hp1 : sp ≤ p) (hp2 : p ≤ ep)
    (hfetch : ∀ q, sp ≤ q → q < p → fetch (pageURL q) = .success (body q))
    (hrecs : ∀ q, sp ≤ q → q < p →
      extract_tracks (find_all_entry_links (parse (body q))) = .ok (recs q))
    (h404 : fetch (pageURL p) = .httpError 404) :
    (scrape_songs fetch parse sp ep v).1 =
      .ok (("title", "artist") :: pagesConcat recs (p - sp).toNat sp) := by
  unfold scrape_songs
  rw [if_neg (by omega), if_neg (by omega)]
  have hrun := scrapeLoop_run fetch parse v ep sp p body recs hfetch hrecs (by omega)
    (p - sp).toNat sp le_rfl (by omega) [("title", "artist")] []
  rw [hrun]
  have hfuel : (ep + 1 - p).toNat = (ep - p).toNat + 1 := by omega
  rw [hfuel]
  simp [scrapeLoop, h404]

/-- Witness for C1: every fetch yields 404, so the very first attempt
(page `p = start_page = 1`) ends pagination and only the header is
returned. -/
theorem C1_witness :
    (scrape_songs (fun _ => .httpError 404) (fun _ => []) 1 3 false).1 =
      .ok [("title", "artist")] := by
  have h := C1_notfound_is_normal_termination (fun _ => .httpError 404) (fun _ => [])
    1 3 1 false (fun _ => "") (fun _ => [])
    (by omega) (by omega) (by omega)
    (fun q h1 h2 => absurd h2 (by omega))
    (fun q h1 h2 => absurd h2 (by omega))
    rfl
  simpa [pagesConcat] using h

/-- C2 counterexample: an HTTP 5xx response (here a 500 on page 1) is a
failure other than the "not found" signal, yet the script's
`except HTTPError` catches it exactly like end-of-pagination and
terminates normally with just the header — it is not propagated as a
terminal transport failure. -/
theorem C2_counterexample :
    (scrape_songs (fun _ => .httpError 500) (fun _ => []) 1 10 false).1 =
      .ok [("title", "artist")]
    ∧ (scrape_songs (fun _ => .httpError 500) (fun _ => []) 1 10 false).1 ≠
      .error .transportFailure := by
  have h : (scrape_songs (fun _ => .httpError 500) (fun _ => []) 1 10 false).1 =
      .ok [("title", "artist")] := rfl
  exact ⟨h, by rw [h]; exact fun hc => nomatch hc⟩

/-- C2 (amended): a transport failure that is not an HTTP status error
(timeout, DNS failure, connection failure — anything `urlopen` raises
other than `HTTPError`) on the attempt for page `p` propagates to the
caller as the terminal `transportFailure` error, with no retry; HTTP
error responses of any status (5xx included, not only 404) are instead
caught as the end-of-pagination signal. -/
theorem C2_nonhttp_failure_propagates
    (fetch : String → FetchResult) (parse : String → List Element)
    (sp ep p : Int) ( v : Bool)
    (body : Int → String) (recs : Int → List Record)
    (hsp : 1 ≤ sp) (hp1 : sp ≤ p) (hp2 : p ≤ ep)
    (hfetch : ∀ q, sp ≤ q → q < p → fetch (pageURL q) = .success (body q))
    (hrecs : ∀ q, sp ≤ q → q < p →
      extract_tracks (find_all_entry_links (parse (body q))) = .ok (recs q))
    (hfail : fetch (pageURL p) = .urlError) :
    (scrape_songs fetch parse sp ep v).1 = .error .transportFailure := by
  unfold scrape_songs
  rw [if_neg (by omega), if_neg (by omega)]
  have hrun := scrapeLoop_run fetch parse v ep sp p body recs hfetch hrecs (by omega)
    (p - sp).toNat sp le_rfl (by omega) [("title", "artist")] []
  rw [hrun]
  have hfuel : (ep + 1 - p).toNat = (ep - p).toNat + 1 := by omega
  rw [hfuel]
  simp [scrapeLoop, hfail]

/-- Witness for C2 (amended): a non-HTTP failure on the first attempt
aborts the run with `transportFailure`. -/
theorem C2_witness :
    (scrape_songs (fun _ => .urlError) (fun _ => []) 1 3 false).1 =
      .error .transportFailure :=
  C2_nonhttp_failure_propagates (fun _ => .urlError) (fun _ => [])
    1 3 1 false (fun _ => "") (fun _ => [])
    (by omega) (by omega) (by omega)
    (fun q h1 h2 => absurd h2 (by omega))
    (fun q h1 h2 => absurd h2 (by omega))
    rfl

/-- C3: argument validation happens before any network activity: for
any `start_page ≤ 0` or `end_page < start_page` the run fails with
`invalidRange` for every possible fetch behaviour (no page is
consulted) and prints nothing, while `end_page = start_page` passes
validation and never produces `invalidRange`. -/
theorem C3_validates_before_fetch
    (parse : String → List Element) (sp ep : Int) ( v : Bool) :
    ((sp ≤ 0 ∨ ep < sp) →
      ∀ fetch : String → FetchResult,
        scrape_songs fetch parse sp ep v = (.error .invalidRange, []))
    ∧ (1 ≤ sp →
      ∀ fetch : String → FetchResult,
        (scrape_songs fetch parse sp sp v).1 ≠ .error .invalidRange) := by
  constructor
  · intro h fetch
    unfold scrape_songs
    by_cases h0 : sp ≤ 0
    · rw [if_pos h0]
    · rw [if_neg h0, if_pos (by omega)]
  · intro h fetch
    unfold scrape_songs
    rw [if_neg (by omega), if_neg (by omega)]
    exact scrapeLoop_ne_invalidRange fetch parse v sp _ sp _ _

/-- Witness for C3: `scrape_songs 5 3` and `scrape_songs 0 10` fail
with `invalidRange` (whatever the network does), while the equal-bounds
call `scrape_songs 4 4` is not rejected. -/
theorem C3_witness :
    scrape_songs (fun _ => .httpError 404) (fun _ => []) 5 3 false =
      (.error .invalidRange, [])
    ∧ scrape_songs (fun _ => .httpError 404) (fun _ => []) 0 10 false =
      (.error .invalidRange, [])
    ∧ (scrape_songs (fun _ => .httpError 404) (fun _ => []) 4 4 false).1 ≠
      .error .invalidRange :=
  ⟨(C3_validates_before_fetch (fun _ => []) 5 3 false).1 (Or.inr (by omega)) _,
   (C3_validates_before_fetch (fun _ => []) 0 10 false).1 (Or.inl (by omega)) _,
   (C3_validates_before_fetch (fun _ => []) 4 4 false).2 (by omega) _⟩

/-- C4: whenever a run over a valid range `start_page ≤ end_page`
terminates normally, the returned sequence is non-empty and its first
element is exactly the header pair `("title", "artist")`. -/
theorem C4_header_first
    (fetch : String → FetchResult) (parse : String → List Element)
    (sp ep : Int) ( v : Bool) (l : List Record)
    (h1 : 1 ≤ sp) (h2 : sp ≤ ep)
    (hok : (scrape_songs fetch parse sp ep v).1 = .ok l) :
    l ≠ [] ∧ l.head? = some ("title", "artist") := by
  unfold scrape_songs at hok
  rw [if_neg (by omega), if_neg (by omega)] at hok
  obtain ⟨rest, hrest⟩ := scrapeLoop_acc_prefix fetch parse v ep _ _ _ _ _ hok
  subst hrest
  simp

/-- Witness for C4: the all-404 run over pages 1..1 returns the header
alone, which is non-empty and header-first. -/
theorem C4_witness :
    ([(("title" : String), ("artist" : String))] ≠ [])
    ∧ ([(("title" : String), ("artist" : String))] : List Record).head? =
      some ("title", "artist") :=
  C4_header_first (fun _ => .httpError 404) (fun _ => []) 1 1 false
    [("title", "artist")] (by omega) le_rfl rfl

/-- C5: the entry query is one `find_all` over both recognized class
variants; a page containing one `"title-link"` entry and one
`"track-collection-item__track-link"` entry (in that document order)
contributes both records to the output, in document order, right after
the header. -/
theorem C5_both_variants_in_document_order
    (fetch : String → FetchResult) (parse : String → List Element)
    (e1 e2 : Element) (body : String) (r1 r2 : Record)
    (ht1 : e1.tag = "a") (hc1 : "title-link" ∈ e1.classes)
    (ht2 : e2.tag = "a") (hc2 : "track-collection-item__track-link" ∈ e2.classes)
    (hparse : parse body = [e1, e2])
    (hf1 : fetch (pageURL 1) = .success body)
    (hf2 : fetch (pageURL 2) = .httpError 404)
    (hg1 : get_track e1 = .ok r1) (hg2 : get_track e2 = .ok r2) :
    (scrape_songs fetch parse 1 2 false).1 =
      .ok [("title", "artist"), r1, r2] := by
  have b1 : (e1.tag == "a" && e1.classes.any fun c => entryClasses.contains c) = true := by
    rw [Bool.and_eq_true, beq_iff_eq]
    exact ⟨ht1, List.any_eq_true.mpr ⟨"title-link", hc1, by decide⟩⟩
  have b2 : (e2.tag == "a" && e2.classes.any fun c => entryClasses.contains c) = true := by
    rw [Bool.and_eq_true, beq_iff_eq]
    exact ⟨ht2, List.any_eq_true.mpr ⟨"track-collection-item__track-link", hc2, by decide⟩⟩
  have hfind : find_all_entry_links [e1, e2] = [e1, e2] := by
    simp only [find_all_entry_links, List.filter_cons, List.filter_nil, b1, b2, if_true]
  have hx : extract_tracks [e1, e2] = .ok [r1, r2] := by
    simp [extract_tracks, hg1, hg2]
  unfold scrape_songs
  rw [if_neg (by omega), if_neg (by omega)]
  rw [show ((2 : Int) + 1 - 1).toNat = Nat.succ (Nat.succ 0) from rfl]
  simp only [scrapeLoop, hf1, hparse, hfind, hx]
  norm_num
  simp only [scrapeLoop, hf2]

/-- Witness for C5: a concrete two-entry page, one entry per variant,
yields both records in document order. -/
theorem C5_witness :
    (scrape_songs
      (fun u => if u = pageURL 1 then .success "B" else .httpError 404)
      (fun _ => [⟨"a", ["title-link"], some (some "T1"), some ["X"]⟩,
                 ⟨"a", ["other", "track-collection-item__track-link"],
                  some (some "T2"), some ["Y", "Z"]⟩])
      1 2 false).1 =
      .ok [("title", "artist"), ("T1", "X"), ("T2", "Y, Z")] := by
  refine C5_both_variants_in_document_order _ _
    ⟨"a", ["title-link"], some (some "T1"), some ["X"]⟩
    ⟨"a", ["other", "track-collection-item__track-link"], some (some "T2"), some ["Y", "Z"]⟩
    "B" ("T1", "X") ("T2", "Y, Z") rfl (by decide) rfl (by decide) rfl ?_ ?_ rfl rfl
  · simp
  · rw [if_neg (by decide)]

/-- C6 counterexample: for the entry whose single artist string is
`"A, B"` (k = 1), the produced artist field contains one occurrence of
the separator `", "`, not `k - 1 = 0`: the "exactly `k-1` occurrences"
count fails when an artist name itself contains the separator. -/
theorem C6_counterexample :
    get_track ⟨"a", ["title-link"], some (some "T"), some ["A, B"]⟩ =
      .ok ("T", "A, B")
    ∧ countSep ("A, B" : String).data ≠ (["A, B"] : List String).length - 1 :=
  ⟨rfl, by decide⟩

/-- C6 (amended): the artist field is the `k` artist-name strings
joined in source order with `", "`; it contains exactly `k-1`
occurrences of `", "` provided no artist name itself contains the
separator; for `k = 0` the field is the empty string and the record is
still produced, with both fields present. -/
theorem C6_artist_join (item : Element) (t : String) (l : List String)
    (hh : item.h2 = some (some t)) (hu : item.ul = some l)
    (hsep : ∀ name ∈ l, countSep name.data = 0) :
    get_track item = .ok (clean_title t, joinArtists l)
    ∧ countSep (joinArtists l).data = l.length - 1
    ∧ (l = [] → joinArtists l = "") := by
  refine ⟨?_, countSep_joinArtists l hsep, ?_⟩
  · simp [get_track, hh, hu]
  · rintro rfl; rfl

/-- Witness for C6 (amended): two separator-free artist names join to
`"A, B"` with exactly one separator occurrence. -/
theorem C6_witness :
    (get_track ⟨"a", ["title-link"], some (some "T"), some ["A", "B"]⟩ =
      .ok (clean_title "T", joinArtists ["A", "B"])
    ∧ countSep (joinArtists ["A", "B"]).data = (["A", "B"] : List String).length - 1
    ∧ ((["A", "B"] : List String) = [] → joinArtists ["A", "B"] = "")) :=
  C6_artist_join ⟨"a", ["title-link"], some (some "T"), some ["A", "B"]⟩
    "T" ["A", "B"] rfl rfl (by decide)

/-- C7: the extracted title is the headline text with every occurrence
of the left double quotation mark, the right double quotation mark, and
the straight double quote deleted (the spec-side character-by-character
deletion `spec_delete_quotes`, nothing substituted in their place). -/
theorem C7_quote_deletion (item : Element) (t : String) (l : List String)
    (hh : item.h2 = some (some t)) (hu : item.ul = some l) :
    get_track item = .ok (spec_delete_quotes t, joinArtists l) := by
  simp [get_track, hh, hu, clean_title_eq_spec]

/-- Witness for C7: the headline text `“Song” "Name"` yields the title
`Song Name`. -/
theorem C7_witness :
    get_track ⟨"a", ["title-link"], some (some "“Song” \"Name\""), some ["A"]⟩ =
      .ok ("Song Name", "A") := by
  have h := C7_quote_deletion
    ⟨"a", ["title-link"], some (some "“Song” \"Name\""), some ["A"]⟩
    "“Song” \"Name\"" ["A"] rfl rfl
  rw [h]
  rfl

/-- C8: an entry whose headline element is absent, whose headline text
is absent, or whose artist list-container is absent makes `get_track`
fail with `malformedEntry` — no record is returned and the entry is not
silently skipped. -/
theorem C8_missing_structure_fails (item : Element)
    (h : item.h2 = none ∨ item.h2 = some none ∨ item.ul = none) :
    get_track item = .error .malformedEntry := by
  rcases h with h | h | h
  · simp [get_track, h]
  · simp [get_track, h]
  · cases hh : item.h2 with
    | none => simp [get_track, hh]
    | some o =>
      cases o with
      | none => simp [get_track, hh]
      | some t => simp [get_track, hh, h]

/-- Witness for C8: an entry with no `<h2>` fails with
`malformedEntry`. -/
theorem C8_witness :
    get_track ⟨"a", ["title-link"], none, none⟩ = .error .malformedEntry :=
  C8_missing_structure_fails ⟨"a", ["title-link"], none, none⟩ (Or.inl rfl)

/-- C9: the title quote-stripping transform is idempotent: applying it
twice yields the same string as applying it once. -/
theorem C9_clean_title_idempotent (s : String) :
    clean_title (clean_title s) = clean_title s := by
  simp [clean_title, List.filter_filter]

/-- C10: the record sequence (and, in particular, the error outcome)
returned by `scrape_songs` does not depend on the `verbose` flag, for
every range and every fixed behaviour of the fetch and parse
collaborators; `verbose` only changes the printed messages. -/
theorem C10_records_independent_of_verbose
    (fetch : String → FetchResult) (parse : String → List Element) (sp ep : Int) :
    (scrape_songs fetch parse sp ep true).1 =
      (scrape_songs fetch parse sp ep false).1 := by
  unfold scrape_songs
  by_cases h0 : sp ≤ 0
  · rw [if_pos h0, if_pos h0]
  · rw [if_neg h0, if_neg h0]
    by_cases h1 : ep < sp
    · rw [if_pos h1, if_pos h1]
    · rw [if_neg h1, if_neg h1]
      exact scrapeLoop_fst_log fetch parse true false ep _ sp _ [] []
